import Mathlib

/-!
Shallow embedding of the front-end view fragments of this repository:

* `DomMutationRow` (replay DOM-mutation timeline row),
* `Default` stack-frame line (`renderRepeats` badge),
* `EventEvidence` panel,
* `HTTPModule` page,
* the repository-settings container (modelled from the spec; only its
  test file is in the sources).

Components are pure functions from a props record to an explicit view
value.  External collaborators (`getFrameDetails`, the HTML beautifier,
the locale functions `t` / `tn`, `eventIsProfilingIssue`, the issue-type
configuration registry) are parameters of the embedding, so every
theorem quantifies over their behaviour.  JavaScript numbers used only
in order comparisons are modelled as `Int`; optional values as `Option`.
-/

namespace Sentry

/-! ## Replay data model (`sentry/utils/replays`) -/

/-- A replay frame: a timestamped record of one observed change within a
session-replay timeline. -/
structure ReplayFrame where
  offsetMs : Int
  timestampMs : Int
  message : Option String
deriving Repr, DecidableEq

/-- An `Extraction`: an HTML snapshot string plus the frame it belongs to. -/
structure Extraction where
  html : String
  frame : ReplayFrame
deriving Repr, DecidableEq

/-- Result of the external `getFrameDetails` helper. -/
structure FrameDetails where
  color : String
  title : String
  type : String
deriving Repr, DecidableEq

/-! ## DomMutationRow -/

/-- Props of `DomMutationRow`.  The callbacks come from `useCrumbHandlers`
and return host actions of an abstract type `α`. -/
structure DomMutationRowProps (α : Type) where
  currentHoverTime : Option Int
  currentTime : Int
  handleMouseEnter : ReplayFrame → α
  handleMouseLeave : ReplayFrame → α
  mutation : Extraction
  onClickTimestamp : ReplayFrame → α
  startTimestampMs : Int

/-- The view produced by one render of `DomMutationRow`: the four class
flags, the attached handlers, and the displayed fields. -/
structure DomMutationRowView (α : Type) where
  beforeCurrentTime : Bool
  afterCurrentTime : Bool
  beforeHoverTime : Bool
  afterHoverTime : Bool
  onMouseEnter : α
  onMouseLeave : α
  iconHasOccurred : Bool
  iconColor : String
  iconType : String
  titleHasOccurred : Bool
  titleText : String
  onTimestampClick : α
  timestampMs : Int
  rowStartTimestampMs : Int
  selectorText : String
  codeLanguage : String
  codeText : String

/-- The line `const hasOccurred = currentTime >= frame.offsetMs`. -/
def hasOccurred (currentTime offsetMs : Int) : Bool :=
  decide (currentTime ≥ offsetMs)

/-- The line
`const isBeforeHover = currentHoverTime === undefined || currentHoverTime >= frame.offsetMs`. -/
def isBeforeHover (currentHoverTime : Option Int) (offsetMs : Int) : Bool :=
  match currentHoverTime with
  | none => true
  | some t => decide (t ≥ offsetMs)

/-- `DomMutationRow`, parameterised by the external `getFrameDetails`
helper and the external HTML beautifier (`beautify.html`, taking the
source text and the indent size). -/
def domMutationRow {α : Type} (getFrameDetails : ReplayFrame → FrameDetails)
    (beautifyHtml : String → Nat → String)
    (p : DomMutationRowProps α) : DomMutationRowView α :=
  let html := p.mutation.html
  let frame := p.mutation.frame
  let occurred := hasOccurred p.currentTime frame.offsetMs
  let beforeHover := isBeforeHover p.currentHoverTime frame.offsetMs
  let details := getFrameDetails frame
  { beforeCurrentTime := occurred
    afterCurrentTime := !occurred
    beforeHoverTime := p.currentHoverTime.isSome && beforeHover
    afterHoverTime := p.currentHoverTime.isSome && !beforeHover
    onMouseEnter := p.handleMouseEnter frame
    onMouseLeave := p.handleMouseLeave frame
    iconHasOccurred := occurred
    iconColor := details.color
    iconType := details.type
    titleHasOccurred := occurred
    titleText := details.title
    onTimestampClick := p.onClickTimestamp frame
    timestampMs := frame.timestampMs
    rowStartTimestampMs := p.startTimestampMs
    selectorText := frame.message.getD ""
    codeLanguage := "html"
    codeText := beautifyHtml html 2 }

end Sentry

namespace Sentry

/-! ## Theorems about DomMutationRow -/

/-- C1: for every pair (`currentTime`, `frame.offsetMs`), `hasOccurred`
is true iff `currentTime ≥ frame.offsetMs`; the rendered flag
`beforeCurrentTime` equals `hasOccurred`, `afterCurrentTime` equals its
negation, and the two flags are mutually exclusive and exhaustive. -/
theorem domMutationRow_currentTime_flags {α : Type}
    (getFrameDetails : ReplayFrame → FrameDetails)
    (beautifyHtml : String → Nat → String) (p : DomMutationRowProps α) :
    (hasOccurred p.currentTime p.mutation.frame.offsetMs = true ↔
      p.currentTime ≥ p.mutation.frame.offsetMs) ∧
    (domMutationRow getFrameDetails beautifyHtml p).beforeCurrentTime =
      hasOccurred p.currentTime p.mutation.frame.offsetMs ∧
    (domMutationRow getFrameDetails beautifyHtml p).afterCurrentTime =
      !(domMutationRow getFrameDetails beautifyHtml p).beforeCurrentTime ∧
    ((domMutationRow getFrameDetails beautifyHtml p).beforeCurrentTime = true ↔
      ¬ (domMutationRow getFrameDetails beautifyHtml p).afterCurrentTime = true) := by
  refine ⟨by simp [hasOccurred], rfl, rfl, ?_⟩
  simp [domMutationRow]

/-- C3: whenever `currentHoverTime` is undefined, `isBeforeHover` is true
and the `afterHoverTime` class flag is false, for every `currentTime` and
`frame.offsetMs`. -/
theorem domMutationRow_hover_undefined {α : Type}
    (getFrameDetails : ReplayFrame → FrameDetails)
    (beautifyHtml : String → Nat → String) (p : DomMutationRowProps α)
    (h : p.currentHoverTime = none) :
    isBeforeHover p.currentHoverTime p.mutation.frame.offsetMs = true ∧
    (domMutationRow getFrameDetails beautifyHtml p).afterHoverTime = false := by
  constructor
  · simp [isBeforeHover, h]
  · simp [domMutationRow, h]

/-- Concrete sample frame used by witnesses. -/
def sampleFrame : ReplayFrame :=
  { offsetMs := 100, timestampMs := 1100, message := some "div.sample" }

/-- Concrete sample mutation used by witnesses. -/
def sampleMutation : Extraction :=
  { html := "<div><span></span></div>", frame := sampleFrame }

/-- Concrete stand-in for `getFrameDetails` used by witnesses. -/
def sampleGetFrameDetails : ReplayFrame → FrameDetails :=
  fun _ => { color := "gray300", title := "DOM Mutation", type := "dom" }

/-- Concrete stand-in for the beautifier used by witnesses. -/
def sampleBeautify : String → Nat → String := fun s _ => s

/-- Concrete `DomMutationRow` props with no hover cursor, used by witnesses. -/
def sampleRowProps : DomMutationRowProps String :=
  { currentHoverTime := none
    currentTime := 150
    handleMouseEnter := fun f => "enter " ++ toString f.offsetMs
    handleMouseLeave := fun f => "leave " ++ toString f.offsetMs
    mutation := sampleMutation
    onClickTimestamp := fun f => "click " ++ toString f.offsetMs
    startTimestampMs := 1000 }

/-- Witness for C3 at a concrete input. -/
theorem domMutationRow_hover_undefined_witness :
    isBeforeHover sampleRowProps.currentHoverTime
      sampleRowProps.mutation.frame.offsetMs = true ∧
    (domMutationRow sampleGetFrameDetails sampleBeautify
      sampleRowProps).afterHoverTime = false :=
  domMutationRow_hover_undefined sampleGetFrameDetails sampleBeautify
    sampleRowProps rfl

/-- C6: the mouse-enter handler is `handleMouseEnter` applied to the
mutation frame, the mouse-leave handler is `handleMouseLeave` applied to
the same frame, and the timestamp click handler is `onClickTimestamp`
applied to the frame.  The row is a pure function of its props: it holds
no internal state. -/
theorem domMutationRow_handlers {α : Type}
    (getFrameDetails : ReplayFrame → FrameDetails)
    (beautifyHtml : String → Nat → String) (p : DomMutationRowProps α) :
    (domMutationRow getFrameDetails beautifyHtml p).onMouseEnter =
      p.handleMouseEnter p.mutation.frame ∧
    (domMutationRow getFrameDetails beautifyHtml p).onMouseLeave =
      p.handleMouseLeave p.mutation.frame ∧
    (domMutationRow getFrameDetails beautifyHtml p).onTimestampClick =
      p.onClickTimestamp p.mutation.frame :=
  ⟨rfl, rfl, rfl⟩

/-- C7: the displayed code text is the beautifier applied to the captured
HTML snapshot with indent size 2, for every snapshot string (malformed
input included) and every beautifier — a total text transform, with no
error path in the row. -/
theorem domMutationRow_beautify {α : Type}
    (getFrameDetails : ReplayFrame → FrameDetails)
    (beautifyHtml : String → Nat → String) (p : DomMutationRowProps α) :
    (domMutationRow getFrameDetails beautifyHtml p).codeText =
      beautifyHtml p.mutation.html 2 ∧
    (domMutationRow getFrameDetails beautifyHtml p).codeLanguage = "html" :=
  ⟨rfl, rfl⟩

end Sentry

namespace Sentry

/-! ## Stack-frame Default line (`frame/lineV2/default.tsx`) -/

/-- The `defined` helper from `app/utils`:
`value !== undefined && value !== null`. -/
def defined (x : Option Int) : Bool :=
  x.isSome

/-- The badge produced by `renderRepeats` when it renders: a tooltip
title (from the locale function `tn`) and the displayed count. -/
structure RepeatedFramesBadge where
  title : String
  count : Int
deriving Repr, DecidableEq

/-- The `renderRepeats` helper of the `Default` line component,
parameterised by the locale function `tn` (singular text, plural text,
count).  Returns the badge, or `none` when nothing is rendered. -/
def renderRepeats (tn : String → String → Int → String)
    (timesRepeated : Option Int) : Option RepeatedFramesBadge :=
  if defined timesRepeated && decide (timesRepeated.getD 0 > 0) then
    some { title := tn "Frame repeated %s time" "Frame repeated %s times"
             (timesRepeated.getD 0)
           count := timesRepeated.getD 0 }
  else
    none

/-- Props of the `Default` line component that its own rendering reads. -/
structure DefaultLineProps where
  frameTitle : String
  hasNextFrame : Bool
  isHoverPreviewed : Bool
  isExpanded : Bool
  platform : String
  timesRepeated : Option Int
  isUsedForGrouping : Bool
  leadsToApp : Bool

/-- The view produced by one render of the `Default` line component. -/
structure DefaultLineView where
  className : String
  leadHintIsExpanded : Bool
  leadHintLeadsToApp : Bool
  titleText : String
  titleIsUsedForGrouping : Bool
  repeats : Option RepeatedFramesBadge
  expanderIsExpanded : Bool

/-- The `Default` stack-frame line component. -/
def defaultLine (tn : String → String → Int → String)
    (p : DefaultLineProps) : DefaultLineView :=
  { className := "title"
    leadHintIsExpanded := p.isExpanded
    leadHintLeadsToApp := p.leadsToApp
    titleText := p.frameTitle
    titleIsUsedForGrouping := p.isUsedForGrouping
    repeats := renderRepeats tn p.timesRepeated
    expanderIsExpanded := p.isExpanded }

/-- C4: the "repeated N times" badge is rendered iff `timesRepeated` is
defined and strictly positive; for `timesRepeated` undefined, zero, or
negative, no badge is rendered. -/
theorem defaultLine_repeats_iff (tn : String → String → Int → String)
    (p : DefaultLineProps) :
    ((defaultLine tn p).repeats.isSome = true ↔
      ∃ n, p.timesRepeated = some n ∧ 0 < n) ∧
    (p.timesRepeated = none → (defaultLine tn p).repeats = none) ∧
    (∀ n, p.timesRepeated = some n → n ≤ 0 →
      (defaultLine tn p).repeats = none) := by
  refine ⟨?_, ?_, ?_⟩
  · cases h : p.timesRepeated with
    | none => simp [defaultLine, renderRepeats, defined, h]
    | some n =>
      simp only [defaultLine, renderRepeats, defined, h]
      by_cases hn : 0 < n <;> simp [hn]
  · intro h
    simp [defaultLine, renderRepeats, defined, h]
  · intro n h hn
    simp [defaultLine, renderRepeats, defined, h, not_lt.mpr hn]

/-- Concrete stand-in for the locale function `tn` used by witnesses. -/
def sampleTn : String → String → Int → String :=
  fun s p n => if n = 1 then s else p

/-- Concrete `Default` line props with `timesRepeated = some 0`. -/
def sampleLinePropsZero : DefaultLineProps :=
  { frameTitle := "in main"
    hasNextFrame := false
    isHoverPreviewed := false
    isExpanded := false
    platform := "javascript"
    timesRepeated := some 0
    isUsedForGrouping := false
    leadsToApp := false }

/-- Concrete `Default` line props with `timesRepeated = some 3`. -/
def sampleLinePropsThree : DefaultLineProps :=
  { sampleLinePropsZero with timesRepeated := some 3 }

/-- Witness for C4 at concrete inputs: a count of 0 renders no badge and
a count of 3 renders one. -/
theorem defaultLine_repeats_witness :
    (defaultLine sampleTn sampleLinePropsZero).repeats = none ∧
    (defaultLine sampleTn sampleLinePropsThree).repeats.isSome = true :=
  ⟨(defaultLine_repeats_iff sampleTn sampleLinePropsZero).2.2 0 rfl le_rfl,
   (defaultLine_repeats_iff sampleTn sampleLinePropsThree).1.mpr
     ⟨3, rfl, by decide⟩⟩

end Sentry

namespace Sentry

/-! ## EventEvidence panel (`components/events/eventEvidence.tsx`) -/

/-- One entry of `occurrence.evidenceDisplay`: a name/value pair. -/
structure EvidenceDisplayItem where
  name : String
  value : String
deriving Repr, DecidableEq

/-- The `event.occurrence` payload, as read by `EventEvidence`: the numeric
occurrence type and the evidence list (optional, mirroring the defensive
`evidenceDisplay?.length` access). -/
structure Occurrence where
  type : Int
  evidenceDisplay : Option (List EvidenceDisplayItem)
deriving Repr, DecidableEq

/-- The event, as read by `EventEvidence`. -/
structure Event where
  occurrence : Option Occurrence
deriving Repr, DecidableEq

/-- The `(issueCategory, issueType)` pair keying the configuration registry. -/
structure IssueCategoryAndType where
  issueCategory : String
  issueType : String
deriving Repr, DecidableEq

/-- The fields of a `Group` that `EventEvidence` destructures. -/
structure Group where
  issueCategory : String
  issueType : String
deriving Repr, DecidableEq

/-- The `evidence` part of an issue-type configuration. -/
structure EvidenceConfig where
  title : String
  helpText : String
deriving Repr, DecidableEq

/-- An issue-type configuration, of which `EventEvidence` reads only the
optional `evidence` field. -/
structure IssueTypeConfig where
  evidence : Option EvidenceConfig
deriving Repr, DecidableEq

/-- External collaborators of `EventEvidence`: the profiling-issue
predicate and the two registry lookups from `sentry/utils`. -/
structure EvidenceDeps where
  eventIsProfilingIssue : Event → Bool
  getIssueCategoryAndTypeFromOccurrenceType : Int → IssueCategoryAndType
  getConfigForIssueType : IssueCategoryAndType → IssueTypeConfig

/-- One row handed to `KeyValueList`. -/
structure KeyValueItem where
  subject : String
  key : String
  value : String
deriving Repr, DecidableEq

/-- The view produced by `EventEvidence`: nothing (`null`), the delegated
`ProfileEventEvidence` renderer, or an evidence data section. -/
inductive EventEvidenceView where
  | nothing : EventEvidenceView
  | profileEvidence (event : Event) (projectSlug : String) : EventEvidenceView
  | section (title : String) (helpText : String)
      (data : List KeyValueItem) (shouldSort : Bool) : EventEvidenceView
deriving Repr, DecidableEq

/-- The line
`const {issueCategory, issueType} = group ?? getIssueCategoryAndTypeFromOccurrenceType(event.occurrence.type)`. -/
def resolvedIssueCategoryAndType (deps : EvidenceDeps) (group : Option Group)
    (occurrenceType : Int) : IssueCategoryAndType :=
  match group with
  | some g => { issueCategory := g.issueCategory, issueType := g.issueType }
  | none => deps.getIssueCategoryAndTypeFromOccurrenceType occurrenceType

/-- The mapping of evidence items to `KeyValueList` rows:
`evidenceDisplay.map(item => ({subject: item.name, key: item.name, value: item.value}))`. -/
def evidenceKeyValueData (items : List EvidenceDisplayItem) : List KeyValueItem :=
  items.map fun item =>
    { subject := item.name, key := item.name, value := item.value }

/-- The tail of `EventEvidence` after the config lookup:
`if (!evidenceDisplay?.length || !config) return null` and otherwise the
`EventDataSection` holding the `KeyValueList` with `shouldSort={false}`. -/
def evidenceSection (config : Option EvidenceConfig)
    (evidenceDisplay : Option (List EvidenceDisplayItem)) : EventEvidenceView :=
  match config, evidenceDisplay with
  | some cfg, some items =>
    if items.length = 0 then
      EventEvidenceView.nothing
    else
      EventEvidenceView.section cfg.title cfg.helpText
        (evidenceKeyValueData items) false
  | _, _ => EventEvidenceView.nothing

/-- The `EventEvidence` component. -/
def eventEvidence (deps : EvidenceDeps) (event : Event) (group : Option Group)
    (projectSlug : String) : EventEvidenceView :=
  match event.occurrence with
  | none => EventEvidenceView.nothing
  | some occurrence =>
    if deps.eventIsProfilingIssue event then
      EventEvidenceView.profileEvidence event projectSlug
    else
      evidenceSection
        ((deps.getConfigForIssueType
          (resolvedIssueCategoryAndType deps group occurrence.type)).evidence)
        occurrence.evidenceDisplay

/-! ## Theorems about EventEvidence -/

/-- C2: `EventEvidence` renders nothing when the occurrence is absent, and
(for a non-profiling event) when the resolved evidence configuration is
absent or the evidence list is absent or empty; when occurrence,
configuration and a non-empty evidence list are all present it renders
exactly one key/value row per evidence item, in input order, with sorting
disabled. -/
theorem eventEvidence_rendering :
    (∀ (deps : EvidenceDeps) (event : Event) (group : Option Group)
      (projectSlug : String), event.occurrence = none →
      eventEvidence deps event group projectSlug = EventEvidenceView.nothing) ∧
    (∀ (deps : EvidenceDeps) (event : Event) (group : Option Group)
      (projectSlug : String) (occ : Occurrence), event.occurrence = some occ →
      deps.eventIsProfilingIssue event = false →
      ((deps.getConfigForIssueType
          (resolvedIssueCategoryAndType deps group occ.type)).evidence = none ∨
        occ.evidenceDisplay = none ∨ occ.evidenceDisplay = some []) →
      eventEvidence deps event group projectSlug = EventEvidenceView.nothing) ∧
    (∀ (deps : EvidenceDeps) (event : Event) (group : Option Group)
      (projectSlug : String) (occ : Occurrence) (cfg : EvidenceConfig)
      (items : List EvidenceDisplayItem), event.occurrence = some occ →
      deps.eventIsProfilingIssue event = false →
      (deps.getConfigForIssueType
        (resolvedIssueCategoryAndType deps group occ.type)).evidence = some cfg →
      occ.evidenceDisplay = some items → items ≠ [] →
      eventEvidence deps event group projectSlug =
        EventEvidenceView.section cfg.title cfg.helpText
          (evidenceKeyValueData items) false) := by
  refine ⟨?_, ?_, ?_⟩
  · intro deps event group projectSlug h
    simp [eventEvidence, h]
  · intro deps event group projectSlug occ h hprof hnull
    rcases hnull with hcfg | hev | hev
    · simp [eventEvidence, h, hprof, evidenceSection, hcfg]
    · cases hc : (deps.getConfigForIssueType
        (resolvedIssueCategoryAndType deps group occ.type)).evidence <;>
        simp [eventEvidence, h, hprof, evidenceSection, hc, hev]
    · cases hc : (deps.getConfigForIssueType
        (resolvedIssueCategoryAndType deps group occ.type)).evidence <;>
        simp [eventEvidence, h, hprof, evidenceSection, hc, hev]
  · intro deps event group projectSlug occ cfg items h hprof hcfg hev hne
    simp [eventEvidence, h, hprof, evidenceSection, hcfg, hev,
      List.length_eq_zero, hne]

/-- C5: for a present occurrence classified as a profiling issue,
`EventEvidence` delegates to `ProfileEventEvidence` with the event and the
project slug. -/
theorem eventEvidence_profiling_delegates (deps : EvidenceDeps) (event : Event)
    (group : Option Group) (projectSlug : String) (occ : Occurrence)
    (h : event.occurrence = some occ)
    (hprof : deps.eventIsProfilingIssue event = true) :
    eventEvidence deps event group projectSlug =
      EventEvidenceView.profileEvidence event projectSlug := by
  simp [eventEvidence, h, hprof]

/-- C10: the `(issueCategory, issueType)` pair used for the registry
lookup comes from the group when one is provided and from
`getIssueCategoryAndTypeFromOccurrenceType(event.occurrence.type)` only
when the group is absent; and the non-profiling branch of
`EventEvidence` looks the configuration up at exactly that pair. -/
theorem eventEvidence_lookup_key :
    (∀ (deps : EvidenceDeps) (g : Group) (t : Int),
      resolvedIssueCategoryAndType deps (some g) t =
        { issueCategory := g.issueCategory, issueType := g.issueType }) ∧
    (∀ (deps : EvidenceDeps) (t : Int),
      resolvedIssueCategoryAndType deps none t =
        deps.getIssueCategoryAndTypeFromOccurrenceType t) ∧
    (∀ (deps : EvidenceDeps) (event : Event) (group : Option Group)
      (projectSlug : String) (occ : Occurrence), event.occurrence = some occ →
      deps.eventIsProfilingIssue event = false →
      eventEvidence deps event group projectSlug =
        evidenceSection
          ((deps.getConfigForIssueType
            (resolvedIssueCategoryAndType deps group occ.type)).evidence)
          occ.evidenceDisplay) := by
  refine ⟨fun deps g t => rfl, fun deps t => rfl, ?_⟩
  intro deps event group projectSlug occ h hprof
  simp [eventEvidence, h, hprof]

/-- Concrete collaborators used by the evidence witnesses: nothing is a
profiling issue, every occurrence type maps to a fixed category pair, and
every key has a configuration with evidence enabled. -/
def sampleDeps : EvidenceDeps :=
  { eventIsProfilingIssue := fun _ => false
    getIssueCategoryAndTypeFromOccurrenceType := fun _ =>
      { issueCategory := "performance", issueType := "performance_slow_db_query" }
    getConfigForIssueType := fun _ =>
      { evidence := some { title := "Evidence", helpText := "Details" } } }

/-- Concrete collaborators whose profiling predicate is always true. -/
def sampleProfilingDeps : EvidenceDeps :=
  { sampleDeps with eventIsProfilingIssue := fun _ => true }

/-- Concrete event with no occurrence. -/
def sampleEventNoOccurrence : Event := { occurrence := none }

/-- Concrete occurrence with one evidence item. -/
def sampleOccurrence : Occurrence :=
  { type := 1001
    evidenceDisplay := some [{ name := "Transaction", value := "/api/users" }] }

/-- Concrete event carrying `sampleOccurrence`. -/
def sampleEventWithOccurrence : Event := { occurrence := some sampleOccurrence }

/-- Concrete occurrence with an empty evidence list. -/
def sampleOccurrenceEmpty : Occurrence :=
  { type := 1001, evidenceDisplay := some [] }

/-- Concrete event carrying `sampleOccurrenceEmpty`. -/
def sampleEventEmptyEvidence : Event :=
  { occurrence := some sampleOccurrenceEmpty }

/-- Witness for C2 at concrete inputs: missing occurrence renders
nothing, an empty evidence list renders nothing, and one evidence item
renders one unsorted row. -/
theorem eventEvidence_rendering_witness :
    eventEvidence sampleDeps sampleEventNoOccurrence none "proj" =
      EventEvidenceView.nothing ∧
    eventEvidence sampleDeps sampleEventEmptyEvidence none "proj" =
      EventEvidenceView.nothing ∧
    eventEvidence sampleDeps sampleEventWithOccurrence none "proj" =
      EventEvidenceView.section "Evidence" "Details"
        [{ subject := "Transaction", key := "Transaction", value := "/api/users" }]
        false :=
  ⟨eventEvidence_rendering.1 sampleDeps sampleEventNoOccurrence none "proj" rfl,
   eventEvidence_rendering.2.1 sampleDeps sampleEventEmptyEvidence none "proj"
     sampleOccurrenceEmpty rfl rfl (Or.inr (Or.inr rfl)),
   eventEvidence_rendering.2.2 sampleDeps sampleEventWithOccurrence none "proj"
     sampleOccurrence { title := "Evidence", helpText := "Details" }
     [{ name := "Transaction", value := "/api/users" }] rfl rfl rfl rfl
     (by decide)⟩

/-- Witness for C5 at a concrete input. -/
theorem eventEvidence_profiling_delegates_witness :
    eventEvidence sampleProfilingDeps sampleEventWithOccurrence none "proj" =
      EventEvidenceView.profileEvidence sampleEventWithOccurrence "proj" :=
  eventEvidence_profiling_delegates sampleProfilingDeps
    sampleEventWithOccurrence none "proj" sampleOccurrence rfl rfl

/-- Witness for C10 at concrete inputs. -/
theorem eventEvidence_lookup_key_witness :
    resolvedIssueCategoryAndType sampleDeps
      (some { issueCategory := "error", issueType := "error_type" }) 1001 =
      { issueCategory := "error", issueType := "error_type" } ∧
    resolvedIssueCategoryAndType sampleDeps none 1001 =
      sampleDeps.getIssueCategoryAndTypeFromOccurrenceType 1001 ∧
    eventEvidence sampleDeps sampleEventWithOccurrence none "proj" =
      evidenceSection
        ((sampleDeps.getConfigForIssueType
          (resolvedIssueCategoryAndType sampleDeps none
            sampleOccurrence.type)).evidence)
        sampleOccurrence.evidenceDisplay :=
  ⟨eventEvidence_lookup_key.1 sampleDeps
     { issueCategory := "error", issueType := "error_type" } 1001,
   eventEvidence_lookup_key.2.1 sampleDeps 1001,
   eventEvidence_lookup_key.2.2 sampleDeps sampleEventWithOccurrence none
     "proj" sampleOccurrence rfl rfl⟩

end Sentry

namespace Sentry

/-! ## HTTPModule page (`views/starfish`) -/

/-- The `ModuleName` enumeration from `sentry/views/starfish/types`. -/
inductive ModuleName where
  | ALL : ModuleName
  | HTTP : ModuleName
  | DB : ModuleName
  | NONE : ModuleName
deriving Repr, DecidableEq

/-- A node of the tree rendered by `HTTPModule`. -/
inductive HttpModuleNode where
  | layoutPage (children : List HttpModuleNode) : HttpModuleNode
  | pageErrorProvider (children : List HttpModuleNode) : HttpModuleNode
  | layoutHeader (children : List HttpModuleNode) : HttpModuleNode
  | layoutHeaderContent (children : List HttpModuleNode) : HttpModuleNode
  | layoutTitle (text : String) : HttpModuleNode
  | layoutBody (children : List HttpModuleNode) : HttpModuleNode
  | layoutMain (fullWidth : Bool) (children : List HttpModuleNode) : HttpModuleNode
  | pageErrorAlert : HttpModuleNode
  | pageFiltersContainer (children : List HttpModuleNode) : HttpModuleNode
  | spansView (moduleName : ModuleName) : HttpModuleNode

/-- The `HTTPModule` page component, parameterised by the locale function
`t`.  It takes no props. -/
def httpModule (t : String → String) : HttpModuleNode :=
  HttpModuleNode.layoutPage
    [HttpModuleNode.pageErrorProvider
      [HttpModuleNode.layoutHeader
        [HttpModuleNode.layoutHeaderContent
          [HttpModuleNode.layoutTitle (t "API Calls")]],
       HttpModuleNode.layoutBody
        [HttpModuleNode.layoutMain true
          [HttpModuleNode.pageErrorAlert,
           HttpModuleNode.pageFiltersContainer
            [HttpModuleNode.spansView ModuleName.HTTP]]]]]

/-- C8: `HTTPModule` takes no inputs and always renders the same static
composition — the title is the localised literal "API Calls", the body
holds the page-error banner followed by the spans view scoped by the
fixed value `ModuleName.HTTP`, and the output depends on nothing except
the locale lookup of that one literal (no branching). -/
theorem httpModule_static (t : String → String) :
    httpModule t =
      HttpModuleNode.layoutPage
        [HttpModuleNode.pageErrorProvider
          [HttpModuleNode.layoutHeader
            [HttpModuleNode.layoutHeaderContent
              [HttpModuleNode.layoutTitle (t "API Calls")]],
           HttpModuleNode.layoutBody
            [HttpModuleNode.layoutMain true
              [HttpModuleNode.pageErrorAlert,
               HttpModuleNode.pageFiltersContainer
                [HttpModuleNode.spansView ModuleName.HTTP]]]]] ∧
    (∀ u : String → String, u "API Calls" = t "API Calls" →
      httpModule u = httpModule t) := by
  refine ⟨rfl, fun u hu => ?_⟩
  simp [httpModule, hu]

/-- Witness for C8 at a concrete locale function. -/
theorem httpModule_static_witness :
    httpModule id =
      HttpModuleNode.layoutPage
        [HttpModuleNode.pageErrorProvider
          [HttpModuleNode.layoutHeader
            [HttpModuleNode.layoutHeaderContent
              [HttpModuleNode.layoutTitle "API Calls"]],
           HttpModuleNode.layoutBody
            [HttpModuleNode.layoutMain true
              [HttpModuleNode.pageErrorAlert,
               HttpModuleNode.pageFiltersContainer
                [HttpModuleNode.spansView ModuleName.HTTP]]]]] ∧
    httpModule (fun s => s ++ "") = httpModule id :=
  ⟨(httpModule_static id).1,
   (httpModule_static id).2 (fun s => s ++ "") (by simp)⟩

end Sentry

namespace Sentry

/-! ## Repository settings container -/

/-- A repository record; only set membership matters here. -/
structure Repository where
  name : String
deriving Repr, DecidableEq

/-- A repository provider record; only set membership matters here. -/
structure RepoProvider where
  id : String
deriving Repr, DecidableEq

/-- State of the repository settings container: the result of each of its
two independent data fetches, `none` while the fetch has not resolved. -/
structure RepoContainerState where
  repositories : Option (List Repository)
  providers : Option (List RepoProvider)
deriving Repr, DecidableEq

/-- What the repository settings container renders. -/
inductive RepoContainerView where
  | loadingIndicator : RepoContainerView
  | body (repositories : List Repository)
      (providers : List RepoProvider) : RepoContainerView
deriving Repr, DecidableEq

/-- Modelled from the spec: `OrganizationRepositoriesContainer`
(`sentry/views/settings/organizationRepositories`) is not among the
source files; only its test is.  Spec 4.1: "given empty repository and
provider lists from two independent data fetches, render a loading
indicator until both resolve, then render provider-specific connection
UI". -/
def organizationRepositoriesContainer (s : RepoContainerState) : RepoContainerView :=
  match s.repositories, s.providers with
  | some repos, some provs => RepoContainerView.body repos provs
  | _, _ => RepoContainerView.loadingIndicator

/-- Modelled from the spec: the state at initial render, before any
response (empty or not) has arrived from either fetch. -/
def initialRepoContainerState : RepoContainerState :=
  { repositories := none, providers := none }

/-- C9: while either data fetch is unresolved the container renders the
loading indicator; in particular the initial render — before the two
synchronously-empty responses arrive — is the loading indicator. -/
theorem repoContainer_initial_loading :
    (∀ s : RepoContainerState,
      s.repositories = none ∨ s.providers = none →
      organizationRepositoriesContainer s = RepoContainerView.loadingIndicator) ∧
    organizationRepositoriesContainer initialRepoContainerState =
      RepoContainerView.loadingIndicator := by
  refine ⟨?_, rfl⟩
  intro s hs
  rcases hs with h | h <;>
    · cases hr : s.repositories <;> cases hp : s.providers <;>
        simp_all [organizationRepositoriesContainer]

/-- Witness for C9 at a concrete state: one fetch resolved empty, the
other still pending. -/
theorem repoContainer_initial_loading_witness :
    organizationRepositoriesContainer
      { repositories := some [], providers := none } =
      RepoContainerView.loadingIndicator ∧
    organizationRepositoriesContainer initialRepoContainerState =
      RepoContainerView.loadingIndicator :=
  ⟨repoContainer_initial_loading.1
     { repositories := some [], providers := none } (Or.inr rfl),
   repoContainer_initial_loading.2⟩

end Sentry
